import Mathlib

/-!
Verification development for the heat flux utilities of this repository
(src/utils.py).  The numeric functions of the flux model are embedded over
the real numbers; the forecast assembly helpers (timezone mapping, year
inference, window merging) are embedded over natural numbers, strings and
association lists.  Pandas series consumed element-wise over an aligned
hourly index are modelled as functions from an abstract time index (a
natural number) to the reals; the index alignment semantics of pandas
binary arithmetic, which matters for misaligned inputs, is modelled
separately as keyed lists with optional (missing) values.
-/

namespace HFF

/-- A forecast row: the numeric weather fields of one timestamp of the
forecast table consumed by calc_fluxes in src/utils.py (temperature and
dewpoint in Fahrenheit, wind speed in mph, sky cover in percent). -/
structure ForecastRow where
  tempF : ℝ
  dewpointF : ℝ
  windMph : ℝ
  skyCoverPct : ℝ

/-- Responses of the two external services contacted from calc_fluxes in
src/utils.py: get_elevation (an HTTP request keyed by latitude and
longitude) and get_solar (the clear sky model, keyed by location and the
elevation previously fetched, returning an irradiance value per timestamp
of the hourly index).  Modelling them as an explicit record makes the
dependence of calc_fluxes on the outside world visible. -/
structure ExternalEnv where
  elevResp : ℝ → ℝ → ℝ
  clearskyResp : ℝ → ℝ → ℝ → ℕ → ℝ

noncomputable section

/-- calc_solar from src/utils.py: q_sw = q0_a_t * (1 - R) * (1 - 0.65 * Cl ** 2). -/
def calc_solar (q0_a_t R Cl : ℝ) : ℝ :=
  q0_a_t * (1 - R) * (1 - 0.65 * Cl ^ 2)

/-- calc_downwelling_LW from src/utils.py: Tak = T_air + 273.15,
sbc = 5.670374419e-8, emissivity = 0.937e-5 * (1 + 0.17 * Cl ** 2) * Tak ** 2,
q_atm = emissivity * sbc * Tak ** 4. -/
def calc_downwelling_LW (T_air Cl : ℝ) : ℝ :=
  let Tak := T_air + 273.15
  let sbc : ℝ := 5.670374419e-8
  let emissivity := 0.937e-5 * (1 + 0.17 * Cl ^ 2) * Tak ^ 2
  emissivity * sbc * Tak ^ 4

/-- calc_upwelling_LW from src/utils.py: Twk = T_water + 273.15,
q_b = 0.97 * sbc * Twk ** 4. -/
def calc_upwelling_LW (T_water : ℝ) : ℝ :=
  let Twk := T_water + 273.15
  let sbc : ℝ := 5.670374419e-8
  let emissivity : ℝ := 0.97
  emissivity * sbc * Twk ^ 4

/-- calc_wind_function from src/utils.py: R * (a + b * U ** c).  The
exponent c is the integer 1 at the only call site (calc_fluxes), so it is
embedded as a natural number power. -/
def calc_wind_function (a b : ℝ) (c : ℕ) (R U : ℝ) : ℝ :=
  R * (a + b * U ^ c)

/-- calc_vapor_pressure from src/utils.py:
6.11 * 10 ** (7.5 * T_dewpoint / (237.3 + T_dewpoint)), with real
exponentiation. -/
def calc_vapor_pressure (T_dewpoint : ℝ) : ℝ :=
  6.11 * (10 : ℝ) ^ ((7.5 * T_dewpoint) / (237.3 + T_dewpoint))

/-- calc_latent_heat from src/utils.py: Lv = 2.500e6 - 2.386e3 * T_water,
rho_w = 1000, es the sixth order saturation vapor pressure polynomial in
Twk = T_water + 273.15 written in Horner form as in the source, and
ql = 0.622 / P * Lv * rho_w * (es - ea) * f_U. -/
def calc_latent_heat (P T_water ea f_U : ℝ) : ℝ :=
  let Twk := T_water + 273.15
  let Lv := 2.500e6 - 2.386e3 * T_water
  let rho_w : ℝ := 1000
  let es := 6984.505294 + Twk * (-188.903931 + Twk * (2.133357675 + Twk * (-1.28858097e-2 + Twk * (4.393587233e-5 + Twk * (-8.023923082e-8 + Twk * 6.136820929e-11)))))
  0.622 / P * Lv * rho_w * (es - ea) * f_U

/-- calc_sensible_heat from src/utils.py: Cp = 1.006e3, rho_w = 1000,
qh = Cp * rho_w * (T_air - T_water) * f_U. -/
def calc_sensible_heat (T_air f_U T_water : ℝ) : ℝ :=
  let Cp : ℝ := 1.006e3
  let rho_w : ℝ := 1000
  Cp * rho_w * (T_air - T_water) * f_U

/-- calc_cooling_rate from src/utils.py: pw = 1000, cpw = 4182,
cooling_rate = q_net / (pw * cpw * D) * 60. -/
def calc_cooling_rate (q_net D : ℝ) : ℝ :=
  let pw : ℝ := 1000
  let cpw : ℝ := 4182
  q_net / (pw * cpw * D) * 60

/-- calc_fluxes from src/utils.py, embedded element-wise over an aligned
hourly time index (modelled as ℕ).  The two external calls, get_elevation
and get_solar, are looked up in the explicit ExternalEnv of service
responses; everything else follows the source line by line.  The second
surface reflectivity assignment of the source (R = 1 for the wind
function) is named Rw here because Lean let bindings do not shadow.  The
returned tuple is (q_sw, q_atm, q_b, q_l, q_h, q_net), with q_b a scalar
exactly as in the source. -/
def calc_fluxes (env : ExternalEnv) (df : ℕ → ForecastRow) (T_water_C lat lon : ℝ) :
    (ℕ → ℝ) × (ℕ → ℝ) × ℝ × (ℕ → ℝ) × (ℕ → ℝ) × (ℕ → ℝ) :=
  let elevation := env.elevResp lat lon
  let ghi := env.clearskyResp lat lon elevation
  let R : ℝ := 0.15
  let Cl : ℕ → ℝ := fun t => (df t).skyCoverPct / 100
  let q_sw : ℕ → ℝ := fun t => calc_solar (ghi t) R (Cl t)
  let T_air_C : ℕ → ℝ := fun t => ((df t).tempF - 32) * (5 / 9)
  let q_atm : ℕ → ℝ := fun t => calc_downwelling_LW (T_air_C t) (Cl t)
  let q_b := calc_upwelling_LW T_water_C
  let a : ℝ := 1e-6
  let b : ℝ := 1e-6
  let c : ℕ := 1
  let Rw : ℝ := 1
  let U : ℕ → ℝ := fun t => (df t).windMph * 0.44704
  let f_U : ℕ → ℝ := fun t => calc_wind_function a b c Rw (U t)
  let T_dewpoint_C : ℕ → ℝ := fun t => ((df t).dewpointF - 32) * (5 / 9)
  let P : ℝ := 1000
  let ea : ℕ → ℝ := fun t => calc_vapor_pressure (T_dewpoint_C t)
  let q_l : ℕ → ℝ := fun t => calc_latent_heat P T_water_C (ea t) (f_U t)
  let q_h : ℕ → ℝ := fun t => calc_sensible_heat (T_air_C t) (f_U t) T_water_C
  let q_net : ℕ → ℝ := fun t => q_sw t + q_atm t - q_b + q_h t - q_l t
  (q_sw, q_atm, q_b, q_l, q_h, q_net)

/-- The net heat flux combination of calc_fluxes, src/utils.py line 182:
q_net = q_sw + q_atm - q_b + q_h - q_l. -/
def calc_q_net (q_sw q_atm q_b q_l q_h : ℝ) : ℝ :=
  q_sw + q_atm - q_b + q_h - q_l

/-- One row of the table built by build_energy_df in src/utils.py: the five
stored columns, with upwelling longwave and latent heat stored negated. -/
structure EnergyRow where
  downwellingSW : ℝ
  downwellingLW : ℝ
  upwellingLW : ℝ
  sensibleHeat : ℝ
  latentHeat : ℝ

/-- The pandas row sum energy_df.sum(axis=1) over the five stored columns. -/
def EnergyRow.rowSum (r : EnergyRow) : ℝ :=
  r.downwellingSW + r.downwellingLW + r.upwellingLW + r.sensibleHeat + r.latentHeat

/-- build_energy_df from src/utils.py, element-wise over the aligned index:
stores q_sw, q_atm, -q_b, q_h and -q_l, then adds the net flux column as the
row sum of the stored columns.  Returns the stored rows paired with the net
flux column. -/
def build_energy_df (q_sw q_atm q_b q_l q_h : ℕ → ℝ) : (ℕ → EnergyRow) × (ℕ → ℝ) :=
  let rows : ℕ → EnergyRow := fun t => ⟨q_sw t, q_atm t, -(q_b t), q_h t, -(q_l t)⟩
  (rows, fun t => (rows t).rowSum)

end

/-- Claim C2: calc_solar computes q_sw = GHI * (1 - R) * (1 - 0.65 * Cl ^ 2);
for GHI ≥ 0 and R in [0, 1] it is monotonically decreasing in Cl on [0, 1],
equals GHI * (1 - R) at Cl = 0, and calc_solar 800 0.15 0 = 680. -/
theorem calc_solar_spec (GHI R Cl Cl1 Cl2 : ℝ)
    (hG : 0 ≤ GHI) (hR1 : R ≤ 1)
    (h1 : 0 ≤ Cl1) (h12 : Cl1 ≤ Cl2) (h2 : Cl2 ≤ 1) :
    calc_solar GHI R Cl = GHI * (1 - R) * (1 - 0.65 * Cl ^ 2) ∧
    calc_solar GHI R Cl2 ≤ calc_solar GHI R Cl1 ∧
    calc_solar GHI R 0 = GHI * (1 - R) ∧
    calc_solar 800 0.15 0 = 680 := by
  refine ⟨rfl, ?_, by simp [calc_solar], by norm_num [calc_solar]⟩
  have hsq : Cl1 ^ 2 ≤ Cl2 ^ 2 := by nlinarith
  have hGR : 0 ≤ GHI * (1 - R) := mul_nonneg hG (by linarith)
  simp only [calc_solar]
  nlinarith [mul_le_mul_of_nonneg_left hsq hGR]

/-- Witness for claim C2 at GHI = 800, R = 0.15, Cl = 0.3, Cl1 = 0.3, Cl2 = 0.9. -/
theorem calc_solar_spec_witness :
    calc_solar 800 0.15 0.3 = 800 * (1 - 0.15) * (1 - 0.65 * 0.3 ^ 2) ∧
    calc_solar 800 0.15 0.9 ≤ calc_solar 800 0.15 0.3 ∧
    calc_solar 800 0.15 0 = 800 * (1 - 0.15) ∧
    calc_solar 800 0.15 0 = 680 :=
  calc_solar_spec 800 0.15 0.3 0.3 0.9 (by norm_num) (by norm_num) (by norm_num)
    (by norm_num) (by norm_num)

/-- Claim C3: calc_latent_heat computes (0.622 / P) * Lv * rho_w * (es - ea) * f_U
with Lv = 2.500e6 - 2.386e3 * T_water and rho_w = 1000, where es is exactly the
sixth order polynomial in Twk = T_water + 273.15 with the listed fixed
coefficients, for every input with P nonzero. -/
theorem calc_latent_heat_spec (P T_water ea f_U : ℝ) (hP : P ≠ 0) :
    calc_latent_heat P T_water ea f_U =
      0.622 / P * (2.500e6 - 2.386e3 * T_water) * 1000 *
        ((6984.505294
          - 188.903931 * (T_water + 273.15)
          + 2.133357675 * (T_water + 273.15) ^ 2
          - 1.28858097e-2 * (T_water + 273.15) ^ 3
          + 4.393587233e-5 * (T_water + 273.15) ^ 4
          - 8.023923082e-8 * (T_water + 273.15) ^ 5
          + 6.136820929e-11 * (T_water + 273.15) ^ 6) - ea) * f_U := by
  simp only [calc_latent_heat]
  ring

/-- Witness for claim C3 at P = 1000, T_water = 4, ea = 6, f_U = 2. -/
theorem calc_latent_heat_spec_witness :
    calc_latent_heat 1000 4 6 2 =
      0.622 / 1000 * (2.500e6 - 2.386e3 * 4) * 1000 *
        ((6984.505294
          - 188.903931 * ((4 : ℝ) + 273.15)
          + 2.133357675 * ((4 : ℝ) + 273.15) ^ 2
          - 1.28858097e-2 * ((4 : ℝ) + 273.15) ^ 3
          + 4.393587233e-5 * ((4 : ℝ) + 273.15) ^ 4
          - 8.023923082e-8 * ((4 : ℝ) + 273.15) ^ 5
          + 6.136820929e-11 * ((4 : ℝ) + 273.15) ^ 6) - 6) * 2 :=
  calc_latent_heat_spec 1000 4 6 2 (by norm_num)

/-- Claim C1: for every set of component series, the net flux column
produced by build_energy_df — the signed row sum of its five stored
columns, with upwelling longwave and latent heat stored negated — equals
the net flux q_sw + q_atm - q_b + q_h - q_l computed by calc_fluxes for the
same components. -/
theorem build_energy_df_net_flux (q_sw q_atm q_b q_l q_h : ℕ → ℝ) (t : ℕ) :
    (build_energy_df q_sw q_atm q_b q_l q_h).2 t =
      calc_q_net (q_sw t) (q_atm t) (q_b t) (q_l t) (q_h t) := by
  simp only [build_energy_df, EnergyRow.rowSum, calc_q_net]
  ring

/-- Claim C4: calc_cooling_rate computes q_net / (1000 * 4182 * D) * 60; it
returns 0 for a zero net flux at any positive depth, and for a nonzero net
flux its magnitude is strictly larger at a shallower depth. -/
theorem calc_cooling_rate_spec (q D q2 D1 D2 : ℝ)
    (hD : 0 < D) (hq : q2 ≠ 0) (hD1 : 0 < D1) (hD12 : D1 < D2) :
    calc_cooling_rate q D = q / (1000 * 4182 * D) * 60 ∧
    calc_cooling_rate 0 D = 0 ∧
    |calc_cooling_rate q2 D2| < |calc_cooling_rate q2 D1| := by
  refine ⟨rfl, by simp [calc_cooling_rate], ?_⟩
  have habs : ∀ D0 : ℝ, 0 < D0 →
      |calc_cooling_rate q2 D0| = |q2| / (1000 * 4182 * D0) * 60 := by
    intro D0 hD0
    simp only [calc_cooling_rate]
    rw [abs_mul, abs_div, abs_of_pos (by positivity : (0:ℝ) < 1000 * 4182 * D0),
      abs_of_pos (by norm_num : (0:ℝ) < 60)]
  rw [habs D1 hD1, habs D2 (lt_trans hD1 hD12)]
  have hlt : |q2| / (1000 * 4182 * D2) < |q2| / (1000 * 4182 * D1) :=
    div_lt_div_of_pos_left (abs_pos.mpr hq) (by positivity) (by nlinarith)
  linarith

/-- Witness for claim C4 at q = 5, D = 2, q2 = -3, D1 = 1, D2 = 4. -/
theorem calc_cooling_rate_spec_witness :
    calc_cooling_rate 5 2 = 5 / (1000 * 4182 * 2) * 60 ∧
    calc_cooling_rate 0 2 = 0 ∧
    |calc_cooling_rate (-3) 4| < |calc_cooling_rate (-3) 1| :=
  calc_cooling_rate_spec 5 2 (-3) 1 4 (by norm_num) (by norm_num) (by norm_num)
    (by norm_num)

/-- Closed form of calc_downwelling_LW used to reason about monotonicity. -/
lemma calc_downwelling_LW_eq (T_air Cl : ℝ) :
    calc_downwelling_LW T_air Cl =
      (0.937e-5 * (1 + 0.17 * Cl ^ 2) * (T_air + 273.15) ^ 2) * 5.670374419e-8 *
        (T_air + 273.15) ^ 4 := rfl

/-- Claim C5: calc_downwelling_LW computes the emissivity
0.937e-5 * (1 + 0.17 * Cl ^ 2) * Tak ^ 2 times 5.670374419e-8 * Tak ^ 4
with Tak = T_air + 273.15, is monotonically increasing in T_air whenever the
Kelvin air temperature is positive, and is monotonically increasing in Cl
for Cl ≥ 0. -/
theorem calc_downwelling_LW_spec (T_air Cl Ta1 Ta2 T Cl1 Cl2 : ℝ)
    (hT : 0 < Ta1 + 273.15) (hTa : Ta1 ≤ Ta2) (hCl : 0 ≤ Cl1) (hCl12 : Cl1 ≤ Cl2) :
    calc_downwelling_LW T_air Cl =
      (0.937e-5 * (1 + 0.17 * Cl ^ 2) * (T_air + 273.15) ^ 2) * 5.670374419e-8 *
        (T_air + 273.15) ^ 4 ∧
    calc_downwelling_LW Ta1 Cl ≤ calc_downwelling_LW Ta2 Cl ∧
    calc_downwelling_LW T Cl1 ≤ calc_downwelling_LW T Cl2 := by
  refine ⟨calc_downwelling_LW_eq T_air Cl, ?_, ?_⟩
  · rw [calc_downwelling_LW_eq, calc_downwelling_LW_eq]
    have hx : (0:ℝ) ≤ Ta1 + 273.15 := le_of_lt hT
    have hxy : Ta1 + 273.15 ≤ Ta2 + 273.15 := by linarith
    gcongr
  · rw [calc_downwelling_LW_eq, calc_downwelling_LW_eq]
    gcongr

/-- Witness for claim C5 at T_air = 10, Cl = 0.5, Ta1 = 0, Ta2 = 25, T = 12,
Cl1 = 0.2, Cl2 = 0.8. -/
theorem calc_downwelling_LW_spec_witness :
    calc_downwelling_LW 10 0.5 =
      (0.937e-5 * (1 + 0.17 * 0.5 ^ 2) * ((10 : ℝ) + 273.15) ^ 2) * 5.670374419e-8 *
        ((10 : ℝ) + 273.15) ^ 4 ∧
    calc_downwelling_LW 0 0.5 ≤ calc_downwelling_LW 25 0.5 ∧
    calc_downwelling_LW 12 0.2 ≤ calc_downwelling_LW 12 0.8 :=
  calc_downwelling_LW_spec 10 0.5 0 25 12 0.2 0.8 (by norm_num) (by norm_num)
    (by norm_num) (by norm_num)

/-- tz_to_gmt_offset from src/utils.py: the fixed ten entry dictionary from
NOAA timezone abbreviations to fixed offset tz database names.  A Python
dictionary lookup of any other key raises KeyError, modelled here as
returning none. -/
def tz_to_gmt_offset (tz_string : String) : Option String :=
  if tz_string = "AKST" then some "Etc/GMT+9"
  else if tz_string = "AKDT" then some "Etc/GMT+8"
  else if tz_string = "PST" then some "Etc/GMT+8"
  else if tz_string = "PDT" then some "Etc/GMT+7"
  else if tz_string = "MST" then some "Etc/GMT+7"
  else if tz_string = "MDT" then some "Etc/GMT+6"
  else if tz_string = "CST" then some "Etc/GMT+6"
  else if tz_string = "CDT" then some "Etc/GMT+5"
  else if tz_string = "EST" then some "Etc/GMT+5"
  else if tz_string = "EDT" then some "Etc/GMT+4"
  else none

/-- The ten abbreviations present in the tz_map dictionary of src/utils.py. -/
def tz_known_abbrevs : List String :=
  ["AKST", "AKDT", "PST", "PDT", "MST", "MDT", "CST", "CDT", "EST", "EDT"]

/-- Claim C6: tz_to_gmt_offset maps exactly the ten known abbreviations to
fixed UTC offset names, in particular PST to Etc/GMT+8 and PDT to
Etc/GMT+7, each daylight abbreviation maps to a different offset than its
standard counterpart, and every abbreviation outside the table is an error
(a KeyError in Python, none in this embedding). -/
theorem tz_to_gmt_offset_spec (s : String) (hs : s ∉ tz_known_abbrevs) :
    tz_to_gmt_offset "AKST" = some "Etc/GMT+9" ∧
    tz_to_gmt_offset "AKDT" = some "Etc/GMT+8" ∧
    tz_to_gmt_offset "PST" = some "Etc/GMT+8" ∧
    tz_to_gmt_offset "PDT" = some "Etc/GMT+7" ∧
    tz_to_gmt_offset "MST" = some "Etc/GMT+7" ∧
    tz_to_gmt_offset "MDT" = some "Etc/GMT+6" ∧
    tz_to_gmt_offset "CST" = some "Etc/GMT+6" ∧
    tz_to_gmt_offset "CDT" = some "Etc/GMT+5" ∧
    tz_to_gmt_offset "EST" = some "Etc/GMT+5" ∧
    tz_to_gmt_offset "EDT" = some "Etc/GMT+4" ∧
    tz_to_gmt_offset "AKST" ≠ tz_to_gmt_offset "AKDT" ∧
    tz_to_gmt_offset "PST" ≠ tz_to_gmt_offset "PDT" ∧
    tz_to_gmt_offset "MST" ≠ tz_to_gmt_offset "MDT" ∧
    tz_to_gmt_offset "CST" ≠ tz_to_gmt_offset "CDT" ∧
    tz_to_gmt_offset "EST" ≠ tz_to_gmt_offset "EDT" ∧
    tz_to_gmt_offset s = none := by
  simp only [tz_known_abbrevs, List.mem_cons, List.not_mem_nil, or_false, not_or] at hs
  obtain ⟨h1, h2, h3, h4, h5, h6, h7, h8, h9, h10⟩ := hs
  refine ⟨rfl, rfl, rfl, rfl, rfl, rfl, rfl, rfl, rfl, rfl,
    by decide, by decide, by decide, by decide, by decide, ?_⟩
  simp [tz_to_gmt_offset, h1, h2, h3, h4, h5, h6, h7, h8, h9, h10]

/-- Witness for claim C6 at the unknown abbreviation UTC. -/
theorem tz_to_gmt_offset_spec_witness :
    tz_to_gmt_offset "AKST" = some "Etc/GMT+9" ∧
    tz_to_gmt_offset "AKDT" = some "Etc/GMT+8" ∧
    tz_to_gmt_offset "PST" = some "Etc/GMT+8" ∧
    tz_to_gmt_offset "PDT" = some "Etc/GMT+7" ∧
    tz_to_gmt_offset "MST" = some "Etc/GMT+7" ∧
    tz_to_gmt_offset "MDT" = some "Etc/GMT+6" ∧
    tz_to_gmt_offset "CST" = some "Etc/GMT+6" ∧
    tz_to_gmt_offset "CDT" = some "Etc/GMT+5" ∧
    tz_to_gmt_offset "EST" = some "Etc/GMT+5" ∧
    tz_to_gmt_offset "EDT" = some "Etc/GMT+4" ∧
    tz_to_gmt_offset "AKST" ≠ tz_to_gmt_offset "AKDT" ∧
    tz_to_gmt_offset "PST" ≠ tz_to_gmt_offset "PDT" ∧
    tz_to_gmt_offset "MST" ≠ tz_to_gmt_offset "MDT" ∧
    tz_to_gmt_offset "CST" ≠ tz_to_gmt_offset "CDT" ∧
    tz_to_gmt_offset "EST" ≠ tz_to_gmt_offset "EDT" ∧
    tz_to_gmt_offset "UTC" = none :=
  tz_to_gmt_offset_spec "UTC" (by decide)

/-- The year inference of get_48h_hourly_forecast, src/utils.py line 62:
np.where(month >= current_month, current_year, current_year + 1), applied
to each row of the fetched table. -/
def infer_year (current_year current_month month : ℕ) : ℕ :=
  if month ≥ current_month then current_year else current_year + 1

/-- Claim C7: for every row month and current month in 1..12, the year
inference step assigns the current year when the row month is at least the
current month and the next year otherwise; in particular with current month
12, month 1 gets the next year and month 12 gets the current year. -/
theorem infer_year_spec (cy cm m : ℕ)
    (hcm1 : 1 ≤ cm) (hcm2 : cm ≤ 12) (hm1 : 1 ≤ m) (hm2 : m ≤ 12) :
    (m ≥ cm → infer_year cy cm m = cy) ∧
    (m < cm → infer_year cy cm m = cy + 1) ∧
    infer_year cy 12 1 = cy + 1 ∧
    infer_year cy 12 12 = cy := by
  unfold infer_year
  refine ⟨fun h => if_pos h, fun h => if_neg (by omega), by norm_num, by norm_num⟩

/-- Witness for claim C7 at current year 2024, current month 12, month 12. -/
theorem infer_year_spec_witness :
    (12 ≥ 12 → infer_year 2024 12 12 = 2024) ∧
    (12 < 12 → infer_year 2024 12 12 = 2024 + 1) ∧
    infer_year 2024 12 1 = 2024 + 1 ∧
    infer_year 2024 12 12 = 2024 :=
  infer_year_spec 2024 12 12 (by norm_num) (by norm_num) (by norm_num) (by norm_num)

/-- Keys of a keyed series: the pandas index of the modelled rows. -/
def seriesKeys {α : Type} (s : List (ℕ × α)) : List ℕ := s.map Prod.fst

/-- First match lookup of a key in a keyed series, the value a pandas index
selection returns on an index without duplicates. -/
def lookupKey {α : Type} (k : ℕ) : List (ℕ × α) → Option α
  | [] => none
  | (k2, v) :: rest => if k2 = k then some v else lookupKey k rest

/-- The row filter df[~df.index.duplicated(keep="first")] of
get_full_forecast, src/utils.py line 77: keep a row exactly when its key has
not appeared earlier, tracked by the accumulator of already seen keys. -/
def dedupFirstAux {α : Type} (seen : List ℕ) : List (ℕ × α) → List (ℕ × α)
  | [] => []
  | (k, v) :: rest =>
      if k ∈ seen then dedupFirstAux seen rest
      else (k, v) :: dedupFirstAux (k :: seen) rest

/-- Duplicate index removal keeping first occurrences, starting from no seen
keys. -/
def dedupFirst {α : Type} (s : List (ℕ × α)) : List (ℕ × α) := dedupFirstAux [] s

/-- The merge step of get_full_forecast, src/utils.py lines 73..77:
concatenate the fetched windows in ahead hour order, then drop duplicate
index entries keeping the first occurrence. -/
def mergeWindows {α : Type} (windows : List (List (ℕ × α))) : List (ℕ × α) :=
  dedupFirst windows.flatten

lemma seriesKeys_cons {α : Type} (k2 : ℕ) (v : α) (rest : List (ℕ × α)) :
    seriesKeys ((k2, v) :: rest) = k2 :: seriesKeys rest := rfl

lemma lookupKey_append_left {α : Type} (l1 l2 : List (ℕ × α)) (k : ℕ)
    (h : k ∈ seriesKeys l1) : lookupKey k (l1 ++ l2) = lookupKey k l1 := by
  induction l1 with
  | nil => simp [seriesKeys] at h
  | cons p rest ih =>
      obtain ⟨k2, v⟩ := p
      by_cases hk : k2 = k
      · simp [lookupKey, hk]
      · have hmem : k ∈ seriesKeys rest := by
          rw [seriesKeys_cons] at h
          rcases List.mem_cons.mp h with hbad | hgood
          · exact absurd hbad.symm hk
          · exact hgood
        simp [lookupKey, hk, ih hmem]

lemma lookupKey_append_right {α : Type} (l1 l2 : List (ℕ × α)) (k : ℕ)
    (h : k ∉ seriesKeys l1) : lookupKey k (l1 ++ l2) = lookupKey k l2 := by
  induction l1 with
  | nil => rfl
  | cons p rest ih =>
      obtain ⟨k2, v⟩ := p
      rw [seriesKeys_cons] at h
      have hk : k2 ≠ k := fun hkk => h (hkk ▸ List.mem_cons_self k2 (seriesKeys rest))
      have hrest : k ∉ seriesKeys rest := fun hmem => h (List.mem_cons_of_mem k2 hmem)
      simp [lookupKey, hk, ih hrest]

lemma lookupKey_none_of_not_mem {α : Type} (s : List (ℕ × α)) (k : ℕ)
    (h : k ∉ seriesKeys s) : lookupKey k s = none := by
  induction s with
  | nil => rfl
  | cons p rest ih =>
      obtain ⟨k2, v⟩ := p
      rw [seriesKeys_cons] at h
      have hk : k2 ≠ k := fun hkk => h (hkk ▸ List.mem_cons_self k2 (seriesKeys rest))
      have hrest : k ∉ seriesKeys rest := fun hmem => h (List.mem_cons_of_mem k2 hmem)
      simp [lookupKey, hk, ih hrest]

lemma dedupFirstAux_lookupKey {α : Type} (l : List (ℕ × α)) (seen : List ℕ) (k : ℕ)
    (h : k ∉ seen) : lookupKey k (dedupFirstAux seen l) = lookupKey k l := by
  induction l generalizing seen with
  | nil => rfl
  | cons p rest ih =>
      obtain ⟨k2, v⟩ := p
      by_cases hseen : k2 ∈ seen
      · have hk : k2 ≠ k := fun hkk => h (hkk ▸ hseen)
        simp [dedupFirstAux, hseen, lookupKey, hk, ih seen h]
      · by_cases hk : k2 = k
        · subst hk
          simp [dedupFirstAux, hseen, lookupKey]
        · have hcons : k ∉ k2 :: seen := by
            intro hmem
            rcases List.mem_cons.mp hmem with hbad | hbad
            · exact hk hbad.symm
            · exact h hbad
          simp [dedupFirstAux, hseen, lookupKey, hk, ih (k2 :: seen) hcons]

/-- Dropping duplicate index entries keeping first occurrences does not
change first match lookups. -/
lemma dedupFirst_lookupKey {α : Type} (s : List (ℕ × α)) (k : ℕ) :
    lookupKey k (dedupFirst s) = lookupKey k s :=
  dedupFirstAux_lookupKey s [] k (List.not_mem_nil k)

/-- Claim C8: after concatenating the fetched windows in ahead hour order
and dropping duplicate timestamps keeping the first occurrence, every
timestamp resolves to its value in the earliest fetched window containing
it, also when later windows contain the same timestamp. -/
theorem mergeWindows_keeps_first {α : Type} (ws : List (List (ℕ × α))) (i k : ℕ)
    (hfirst : ∀ j, j < i → k ∉ seriesKeys (ws.getD j []))
    (hk : k ∈ seriesKeys (ws.getD i [])) :
    lookupKey k (mergeWindows ws) = lookupKey k (ws.getD i []) := by
  unfold mergeWindows
  rw [dedupFirst_lookupKey]
  induction ws generalizing i with
  | nil =>
      simp [List.getD, seriesKeys] at hk
  | cons w rest ih =>
      cases i with
      | zero =>
          simp only [List.getD_cons_zero] at hk ⊢
          simpa [List.flatten_cons] using lookupKey_append_left w rest.flatten k hk
      | succ n =>
          have h0 : k ∉ seriesKeys w := by
            simpa using hfirst 0 (Nat.succ_pos n)
          have hfirst2 : ∀ j, j < n → k ∉ seriesKeys (rest.getD j []) := by
            intro j hj
            simpa using hfirst (j + 1) (by omega)
          have hk2 : k ∈ seriesKeys (rest.getD n []) := by
            simpa using hk
          simp only [List.getD_cons_succ]
          calc lookupKey k (w :: rest).flatten
              = lookupKey k rest.flatten := by
                simpa [List.flatten_cons] using lookupKey_append_right w rest.flatten k h0
            _ = lookupKey k (rest.getD n []) := ih n hfirst2 hk2

/-- Witness for claim C8: two overlapping windows sharing timestamp 5, the
merged series keeps the value of window zero at timestamp 5 and, shown
here, resolves timestamp 6, absent from window zero, in window one. -/
theorem mergeWindows_keeps_first_witness :
    lookupKey 6 (mergeWindows [[(5, 10)], [(5, 20), (6, 30)]]) =
      lookupKey 6 (([[(5, 10)], [(5, 20), (6, 30)]] : List (List (ℕ × ℕ))).getD 1 []) :=
  mergeWindows_keeps_first [[(5, 10)], [(5, 20), (6, 30)]] 1 6 (by decide) (by decide)

noncomputable section

/-- An external environment whose elevation service reports 0 and whose
clear sky service reports 0 irradiance at every timestamp. -/
def envZero : ExternalEnv := ⟨fun _ _ => 0, fun _ _ _ _ => 0⟩

/-- An external environment identical to envZero except that the clear sky
service reports 100 irradiance at every timestamp: the same call to
calc_fluxes made while the outside world answers differently. -/
def envHundred : ExternalEnv := ⟨fun _ _ => 0, fun _ _ _ _ => 100⟩

/-- An external environment whose elevation service reports 5 and whose
clear sky service reports 0 irradiance at every timestamp. -/
def envElevFive : ExternalEnv := ⟨fun _ _ => 5, fun _ _ _ _ => 0⟩

/-- A constant forecast: 32 Fahrenheit air and dewpoint, no wind, no cloud. -/
def dfConst : ℕ → ForecastRow := fun _ => ⟨32, 32, 0, 0⟩

end

/-- Claim C9 counterexample: calc_fluxes is not pure.  It calls the network
bound get_elevation and the clear sky model, so two runs on exactly equal
inputs (forecast table, water temperature, latitude, longitude) return
different outputs when the external clear sky service answers differently
between the runs, as witnessed by these two concrete environments. -/
theorem calc_fluxes_not_pure :
    calc_fluxes envZero dfConst 0 0 0 ≠ calc_fluxes envHundred dfConst 0 0 0 := by
  intro h
  have h1 := congrArg (fun r => r.1 0) h
  simp only [calc_fluxes, envZero, envHundred, dfConst, calc_solar] at h1
  norm_num at h1

/-- Claim C9 (amended): the element-wise flux functions are pure functions
of their explicit arguments, and calc_fluxes depends on the outside world
only through the responses of the elevation and clear sky services: two
runs on equal inputs return equal outputs whenever the composed clear sky
response (the only service output reaching the returned series) agrees,
even when the raw elevation responses differ. -/
theorem calc_fluxes_deterministic (e1 e2 : ExternalEnv) (df : ℕ → ForecastRow)
    (T lat lon : ℝ)
    (h : e1.clearskyResp lat lon (e1.elevResp lat lon) =
         e2.clearskyResp lat lon (e2.elevResp lat lon)) :
    calc_fluxes e1 df T lat lon = calc_fluxes e2 df T lat lon := by
  simp only [calc_fluxes, h]

/-- Witness for the amended claim C9: the environments envElevFive and
envZero return different elevations but the same clear sky irradiance, and
calc_fluxes returns the same output under both. -/
theorem calc_fluxes_deterministic_witness :
    calc_fluxes envElevFive dfConst 0 0 0 = calc_fluxes envZero dfConst 0 0 0 :=
  calc_fluxes_deterministic envElevFive envZero dfConst 0 0 0 rfl

/-- Union of two pandas indexes as used by binary series arithmetic: the
keys of the left operand followed by the keys only the right operand has.
Pandas additionally sorts the union; the order is irrelevant to the key
based statements proved here. -/
def idxUnion (k1 k2 : List ℕ) : List ℕ := k1 ++ k2.filter (fun k => ¬ k1.contains k)

/-- Combination of two aligned cells under pandas binary arithmetic: the
operation is applied where both operands are present and non missing, and
every other cell becomes NaN (none). -/
def alignVal (f : ℝ → ℝ → ℝ) (x y : Option (Option ℝ)) : Option ℝ :=
  match x, y with
  | some (some a), some (some b) => some (f a b)
  | _, _ => none

/-- Pandas binary arithmetic between two keyed series with possibly missing
values: outer join index alignment, evaluating the operation where both
sides are present and filling NaN (none) elsewhere.  No exception is
raised on mismatched indexes; this is the semantics the expression
q_sw = calc_solar(ghi, R, Cl) of calc_fluxes inherits from pandas. -/
def alignOp (f : ℝ → ℝ → ℝ) (s1 s2 : List (ℕ × Option ℝ)) : List (ℕ × Option ℝ) :=
  (idxUnion (seriesKeys s1) (seriesKeys s2)).map fun k =>
    (k, alignVal f (lookupKey k s1) (lookupKey k s2))

/-- The shortwave step of calc_fluxes applied to a ghi series and a cloud
series: the scalar formula calc_solar evaluated under pandas index
alignment. -/
noncomputable def calc_solar_series (R : ℝ) (ghi Cl : List (ℕ × Option ℝ)) :
    List (ℕ × Option ℝ) :=
  alignOp (fun g c => calc_solar g R c) ghi Cl

lemma alignVal_none_right (f : ℝ → ℝ → ℝ) (x : Option (Option ℝ)) :
    alignVal f x none = none := by
  rcases x with _ | y
  · rfl
  · rcases y with _ | a <;> rfl

lemma lookupKey_map_pair {β : Type} (l : List ℕ) (g : ℕ → β) (k : ℕ) (h : k ∈ l) :
    lookupKey k (l.map fun k2 => (k2, g k2)) = some (g k) := by
  induction l with
  | nil => simp at h
  | cons a rest ih =>
      by_cases hk : a = k
      · subst hk
        simp [lookupKey]
      · have hmem : k ∈ rest := by
          rcases List.mem_cons.mp h with hbad | hgood
          · exact absurd hbad.symm hk
          · exact hgood
        simp [lookupKey, hk, ih hmem]

/-- Claim C10 (amended): when the ghi series and the cloud cover series
passed into the flux model cover different timestamp sets, the model does
not fail: pandas index alignment produces a series over the union of the
two indexes, and every timestamp present in one series but absent from the
other carries NaN in the output, silently. -/
theorem calc_solar_series_misaligned (R : ℝ) (ghi Cl : List (ℕ × Option ℝ)) (k : ℕ)
    (h1 : k ∈ seriesKeys ghi) (h2 : k ∉ seriesKeys Cl) :
    lookupKey k (calc_solar_series R ghi Cl) = some none := by
  unfold calc_solar_series alignOp
  have hmem : k ∈ idxUnion (seriesKeys ghi) (seriesKeys Cl) :=
    List.mem_append_left _ h1
  rw [lookupKey_map_pair _ _ _ hmem, lookupKey_none_of_not_mem Cl k h2,
    alignVal_none_right]

/-- Witness for the amended claim C10: a ghi series covering timestamps 3
and 4 multiplied against a cloud series covering only timestamp 3 yields a
series whose cell at timestamp 4 is NaN. -/
theorem calc_solar_series_misaligned_witness :
    lookupKey 4 (calc_solar_series 0.15 [(3, some 800), (4, some 500)] [(3, some 0)]) =
      some none :=
  calc_solar_series_misaligned 0.15 [(3, some 800), (4, some 500)] [(3, some 0)] 4
    (by simp [seriesKeys]) (by simp [seriesKeys])

/-- Claim C10 counterexample: with the ghi series covering timestamps 0 and
1 but the cloud series covering only timestamp 0, the shortwave step of the
flux model returns a two row series — 680 at timestamp 0 and NaN at
timestamp 1 — instead of failing with an error: misaligned series produce
output. -/
theorem calc_solar_series_no_error :
    calc_solar_series 0.15 [(0, some 800), (1, some 500)] [(0, some 0)] =
      [(0, some 680), (1, none)] := by
  have h680 : calc_solar 800 0.15 0 = 680 := by norm_num [calc_solar]
  simp [calc_solar_series, alignOp, alignVal, idxUnion, seriesKeys, lookupKey, h680]

end HFF
